import Mathlib

/-!
Shallow embedding of the Pandora FMS visual console composition engine
(`visual_console/src/VisualConsole.ts`) and proofs about its behaviour.

The engine's own file is embedded directly.  Helpers it imports from
`./lib`, `./VisualConsoleItem` and `./items/*` are not part of the sources;
those are modelled from the specification and are marked as such in their
doc comments.

JavaScript values relevant to the decoders are modelled by `JValue`.
`undefined` and `null` are collapsed into a single `JValue.null`
constructor: every operation the embedded code performs on them
(`== null`, `parseInt` giving `NaN`, `typeof x !== "string"`, permissive
boolean coercion) treats the two identically.
-/

inductive JValue where
  | null : JValue
  | str : String → JValue
  | num : Int → JValue
  | bool : Bool → JValue
deriving DecidableEq, Repr

/-- An untyped field bag (a raw descriptor): an association list from
field names to values.  A missing key reads as `JValue.null`
(JavaScript `undefined`). -/
def UnknownObject := List (String × JValue)

instance : DecidableEq UnknownObject := by
  unfold UnknownObject
  exact inferInstance

/-- Field access `data.key` on a raw object; absent keys give `undefined`,
collapsed into `JValue.null`. -/
def getField (data : UnknownObject) (key : String) : JValue :=
  match data with
  | [] => JValue.null
  | (k, v) :: rest => if k = key then v else getField rest key

/-- Numeric value of a list of decimal digit characters. -/
def digitsToNat (ds : List Char) : Nat :=
  ds.foldl (fun a c => 10 * a + (c.toNat - 48)) 0

/-- The leading run of decimal digits of a character list, as a number;
`none` when the list does not start with a digit. -/
def leadingNat (cs : List Char) : Option Nat :=
  let ds := cs.takeWhile Char.isDigit
  if ds.isEmpty then none else some (digitsToNat ds)

/-- JavaScript `parseInt` on a string: skip leading whitespace, read an
optional sign and then the longest run of decimal digits; `NaN` (here
`none`) when no digit follows.  Trailing characters are ignored, as in
JavaScript.  (Hexadecimal `0x` prefixes are not modelled; no claim
involves them.) -/
def jsParseIntStr (s : String) : Option Int :=
  let cs := s.toList.dropWhile (fun c => c = ' ' ∨ c = '\t' ∨ c = '\n' ∨ c = '\r')
  match cs with
  | '-' :: rest => (leadingNat rest).map (fun n => -(n : Int))
  | '+' :: rest => (leadingNat rest).map (fun n => (n : Int))
  | _ => (leadingNat cs).map (fun n => (n : Int))

/-- JavaScript `parseInt(value)` with `none` standing for `NaN`.
A number is already integral in this model; `null`/`undefined` and
booleans stringify to `"null"`/`"undefined"`/`"true"`/`"false"`, none of
which starts with a digit, hence `NaN`. -/
def jsParseInt : JValue → Option Int
  | JValue.num n => some n
  | JValue.str s => jsParseIntStr s
  | _ => none

/-- Modelled from the spec: `lib`'s `parseIntOr` (the `lib` module is not
in the sources) — the integer parse of the value, or the fallback when
the value does not parse as an integer. -/
def parseIntOr (v : JValue) (fallback : Option Int) : Option Int :=
  match jsParseInt v with
  | some n => some n
  | none => fallback

/-- Modelled from the spec: `lib`'s `parseBoolean` — permissive truthy
coercion: boolean `true`, the string forms of true/1 and the number 1
coerce to `true`; anything else is `false`. -/
def parseBoolean : JValue → Bool
  | JValue.bool b => b
  | JValue.str s => s = "true" || s = "1"
  | JValue.num n => n = 1
  | JValue.null => false

/-- Width and height of a sizeable entity (`Size` in `types.ts`). -/
structure Size where
  width : Int
  height : Int
deriving DecidableEq, Repr

/-- Modelled from the spec: `lib`'s `sizePropsDecoder` — the shared
sub-decoder for `width`/`height` reused by console and widget props;
both fields must be present, integer-parseable and non-negative,
otherwise it fails with a validation error. -/
def sizePropsDecoder (data : UnknownObject) : Except String Size :=
  match jsParseInt (getField data "width"), jsParseInt (getField data "height") with
  | some w, some h =>
      if 0 ≤ w ∧ 0 ≤ h then Except.ok { width := w, height := h }
      else Except.error "invalid size."
  | _, _ => Except.error "invalid size."

/-- Base properties of the console (`VisualConsoleProps`). -/
structure VisualConsoleProps where
  id : Int
  name : String
  groupId : Int
  backgroundURL : Option String
  backgroundColor : Option String
  isFavorite : Bool
  width : Int
  height : Int
deriving DecidableEq, Repr

def VisualConsoleProps.toSize (p : VisualConsoleProps) : Size :=
  { width := p.width, height := p.height }

/-- `typeof v === "string" && v.length > 0 ? v : null` — the optional
string normalization used for the background fields. -/
def optString : JValue → Option String
  | JValue.str s => if 0 < s.length then some s else none
  | _ => none

/-- `visualConsolePropsDecoder` from `VisualConsole.ts`.  A thrown
`TypeError` is embedded as `Except.error` carrying the message.  The
source's `id == null || isNaN(parseInt(id))` test is exactly
`jsParseInt (getField data "id") = none` here, because `parseInt` of
`null`/`undefined` is `NaN`. -/
def visualConsolePropsDecoder (data : UnknownObject) :
    Except String VisualConsoleProps :=
  match jsParseInt (getField data "id") with
  | none => Except.error "invalid Id."
  | some idv =>
    match getField data "name" with
    | JValue.str name =>
      if name.length = 0 then Except.error "invalid name."
      else
        match jsParseInt (getField data "groupId") with
        | none => Except.error "invalid group Id."
        | some gid =>
          match sizePropsDecoder data with
          | Except.error e => Except.error e
          | Except.ok sz =>
            Except.ok
              { id := idv
                name := name
                groupId := gid
                backgroundURL := optString (getField data "backgroundURL")
                backgroundColor := optString (getField data "backgroundColor")
                isFavorite := parseBoolean (getField data "isFavorite")
                width := sz.width
                height := sz.height }
    | _ => Except.error "invalid name."

/-- Modelled from the spec: the widget variant enumeration
(`VisualConsoleItemType` in `VisualConsoleItem.ts`, not in the sources).
The members are exactly the ones the factory switch in
`VisualConsole.ts` enumerates. -/
inductive VisualConsoleItemType where
  | staticGraph
  | moduleGraph
  | simpleValue
  | percentileBar
  | label
  | icon
  | simpleValueMax
  | simpleValueMin
  | simpleValueAvg
  | percentileBubble
  | service
  | groupItem
  | boxItem
  | lineItem
  | autoSlaGraph
  | circularProgressBar
  | circularInteriorProgressBar
  | donutGraph
  | barsGraph
  | clock
  | colorCloud
deriving DecidableEq, Repr

/-- Modelled from the spec: the numeric tag of each enumeration member.
The TypeScript enum carries default numbering, i.e. declaration order
starting at 0, with the members declared in the order the factory
switch lists them. -/
def VisualConsoleItemType.tag : VisualConsoleItemType → Int
  | staticGraph => 0
  | moduleGraph => 1
  | simpleValue => 2
  | percentileBar => 3
  | label => 4
  | icon => 5
  | simpleValueMax => 6
  | simpleValueMin => 7
  | simpleValueAvg => 8
  | percentileBubble => 9
  | service => 10
  | groupItem => 11
  | boxItem => 12
  | lineItem => 13
  | autoSlaGraph => 14
  | circularProgressBar => 15
  | circularInteriorProgressBar => 16
  | donutGraph => 17
  | barsGraph => 18
  | clock => 19
  | colorCloud => 20

/-- Modelled from the spec: the widget-level props shared by every
variant (`VisualConsoleItemProps`); at minimum an `id` unique within the
console and an `isOnTop` stacking hint.  Variant-specific fields are out
of the spec's scope. -/
structure VisualConsoleItemProps where
  id : Int
  isOnTop : Bool
deriving DecidableEq, Repr

/-- Modelled from the spec: the validation shared by the per-variant
props decoders (`staticGraphPropsDecoder`, `iconPropsDecoder`,
`groupPropsDecoder`, `colorCloudPropsDecoder`; the `items/*` modules are
not in the sources) — `id` must be integer-parseable, `isOnTop` is read
through the permissive boolean coercion; a bag without a parseable `id`
is rejected with a validation error. -/
def itemBasePropsDecoder (data : UnknownObject) :
    Except String VisualConsoleItemProps :=
  match jsParseInt (getField data "id") with
  | none => Except.error "invalid item id."
  | some i =>
      Except.ok { id := i, isOnTop := parseBoolean (getField data "isOnTop") }

def staticGraphPropsDecoder : UnknownObject → Except String VisualConsoleItemProps :=
  itemBasePropsDecoder

def iconPropsDecoder : UnknownObject → Except String VisualConsoleItemProps :=
  itemBasePropsDecoder

def groupPropsDecoder : UnknownObject → Except String VisualConsoleItemProps :=
  itemBasePropsDecoder

def colorCloudPropsDecoder : UnknownObject → Except String VisualConsoleItemProps :=
  itemBasePropsDecoder

/-- A constructed widget instance.  It holds its validated props and is
identified with the single UI element it owns (`elementRef`): appending
the instance to a container stands for appending that element. -/
structure Item where
  props : VisualConsoleItemProps
  itemType : VisualConsoleItemType
deriving DecidableEq, Repr

/-- `itemInstanceFrom` from `VisualConsole.ts`: parse the `type`
discriminant (`parseIntOr(data.type, null)`, then `type == null` throws)
and dispatch over the enumeration; the four implemented variants
construct through their decoder, every other member and the `default`
branch throw `"item not found"`. -/
def itemInstanceFrom (data : UnknownObject) : Except String Item :=
  match parseIntOr (getField data "type") none with
  | none => Except.error "missing item type."
  | some t =>
    if t = VisualConsoleItemType.staticGraph.tag then
      (staticGraphPropsDecoder data).map
        (fun p => { props := p, itemType := VisualConsoleItemType.staticGraph })
    else if t = VisualConsoleItemType.moduleGraph.tag then
      Except.error "item not found"
    else if t = VisualConsoleItemType.simpleValue.tag then
      Except.error "item not found"
    else if t = VisualConsoleItemType.percentileBar.tag then
      Except.error "item not found"
    else if t = VisualConsoleItemType.label.tag then
      Except.error "item not found"
    else if t = VisualConsoleItemType.icon.tag then
      (iconPropsDecoder data).map
        (fun p => { props := p, itemType := VisualConsoleItemType.icon })
    else if t = VisualConsoleItemType.simpleValueMax.tag then
      Except.error "item not found"
    else if t = VisualConsoleItemType.simpleValueMin.tag then
      Except.error "item not found"
    else if t = VisualConsoleItemType.simpleValueAvg.tag then
      Except.error "item not found"
    else if t = VisualConsoleItemType.percentileBubble.tag then
      Except.error "item not found"
    else if t = VisualConsoleItemType.service.tag then
      Except.error "item not found"
    else if t = VisualConsoleItemType.groupItem.tag then
      (groupPropsDecoder data).map
        (fun p => { props := p, itemType := VisualConsoleItemType.groupItem })
    else if t = VisualConsoleItemType.boxItem.tag then
      Except.error "item not found"
    else if t = VisualConsoleItemType.lineItem.tag then
      Except.error "item not found"
    else if t = VisualConsoleItemType.autoSlaGraph.tag then
      Except.error "item not found"
    else if t = VisualConsoleItemType.circularProgressBar.tag then
      Except.error "item not found"
    else if t = VisualConsoleItemType.circularInteriorProgressBar.tag then
      Except.error "item not found"
    else if t = VisualConsoleItemType.donutGraph.tag then
      Except.error "item not found"
    else if t = VisualConsoleItemType.barsGraph.tag then
      Except.error "item not found"
    else if t = VisualConsoleItemType.clock.tag then
      Except.error "item not found"
    else if t = VisualConsoleItemType.colorCloud.tag then
      (colorCloudPropsDecoder data).map
        (fun p => { props := p, itemType := VisualConsoleItemType.colorCloud })
    else Except.error "item not found"

/-- One observable mutation of the surface element: a style attribute
write or a child insertion.  `style.width`/`style.height` writes are
logged separately, as the code performs them separately. -/
inductive Mutation where
  | setBackgroundImage (v : Option String)
  | setBackgroundColor (v : Option String)
  | setWidth (v : Int)
  | setHeight (v : Int)
  | appendChild (child : Item)
deriving DecidableEq, Repr

/-- The DOM container holding the console surface: its style attributes,
its children (the appended widget elements) in document order, and a log
of every mutation performed on it, most recent first. -/
structure Container where
  backgroundImage : Option String
  backgroundColor : Option String
  widthStyle : Option Int
  heightStyle : Option Int
  children : List Item
  log : List Mutation
deriving DecidableEq, Repr

def Container.setBackgroundImage (c : Container) (v : Option String) : Container :=
  { c with backgroundImage := v, log := Mutation.setBackgroundImage v :: c.log }

def Container.setBackgroundColor (c : Container) (v : Option String) : Container :=
  { c with backgroundColor := v, log := Mutation.setBackgroundColor v :: c.log }

def Container.setWidthStyle (c : Container) (v : Int) : Container :=
  { c with widthStyle := some v, log := Mutation.setWidth v :: c.log }

def Container.setHeightStyle (c : Container) (v : Int) : Container :=
  { c with heightStyle := some v, log := Mutation.setHeight v :: c.log }

def Container.appendChild (c : Container) (child : Item) : Container :=
  { c with children := c.children ++ [child],
           log := Mutation.appendChild child :: c.log }

/-- `VisualConsole.sizeChanged`: compare the previous and the new size. -/
def sizeChanged (prevSize newSize : Size) : Bool :=
  prevSize.width != newSize.width || prevSize.height != newSize.height

/-- `VisualConsole.resizeElement`: write the width and height style
attributes of the container. -/
def resizeElement (c : Container) (width height : Int) : Container :=
  (c.setWidthStyle width).setHeightStyle height

/-- `VisualConsole.render`: with a previous props value only the changed
attributes are patched; without one (the forced first render) every
attribute is written unconditionally. -/
def render (props : VisualConsoleProps) (prevProps : Option VisualConsoleProps)
    (c : Container) : Container :=
  match prevProps with
  | some prev =>
    let c1 := if prev.backgroundURL ≠ props.backgroundURL
      then c.setBackgroundImage props.backgroundURL else c
    let c2 := if prev.backgroundColor ≠ props.backgroundColor
      then c1.setBackgroundColor props.backgroundColor else c1
    if sizeChanged prev.toSize props.toSize
      then resizeElement c2 props.width props.height else c2
  | none =>
    resizeElement
      ((c.setBackgroundImage props.backgroundURL).setBackgroundColor
        props.backgroundColor)
      props.width props.height

/-- The comparator passed to `this.elements.sort` in the constructor
(the source comments it `Sort by isOnTop, id ASC`, but the tie-break it
implements is id descending). -/
def jsCompare (a b : Item) : Int :=
  if a.props.isOnTop && !b.props.isOnTop then 1
  else if !a.props.isOnTop && b.props.isOnTop then -1
  else if a.props.id < b.props.id then 1
  else -1

/-- "a does not come after b" under the sort comparator.  Since ES2019,
`Array.prototype.sort` is required to be stable, so the call is modelled
as a stable sort with respect to this relation. -/
def itemLe (a b : Item) : Prop := jsCompare a b ≤ 0

instance : DecidableRel itemLe :=
  fun a b => inferInstanceAs (Decidable (jsCompare a b ≤ 0))

/-- `this.elements.sort(comparator)`, modelled as a stable
(insertion) sort. -/
def sortElements (l : List Item) : List Item :=
  l.insertionSort itemLe

/-- The state of a constructed `VisualConsole`: the container reference,
the stored props and the internal `elements` collection. -/
structure VisualConsoleState where
  containerRef : Container
  props : VisualConsoleProps
  elements : List Item
deriving DecidableEq, Repr

/-- The `props` setter: store the new props wholesale, then re-render
diffing against the previous value. -/
def VisualConsoleState.setProps (s : VisualConsoleState)
    (newProps : VisualConsoleProps) : VisualConsoleState :=
  { s with props := newProps,
           containerRef := render newProps (some s.props) s.containerRef }

/-- `VisualConsole.resize`: replace only `width`/`height` on top of the
current props (object spread) and assign through the props setter. -/
def VisualConsoleState.resize (s : VisualConsoleState)
    (width height : Int) : VisualConsoleState :=
  s.setProps { s.props with width := width, height := height }

/-- One iteration of the constructor's `items.forEach`: construct the
instance and append it and its element, or swallow the error and keep
the accumulator (the `catch` only logs).  The `onClick` subscription on
success mutates no modelled state (it logs on click only). -/
def constructStep (acc : Container × List Item) (item : UnknownObject) :
    Container × List Item :=
  match itemInstanceFrom item with
  | Except.ok inst => (acc.1.appendChild inst, acc.2 ++ [inst])
  | Except.error _ => acc

/-- The `VisualConsole` constructor: store the container and props, force
a first full render, process every raw descriptor in order, then sort
the internal collection (the DOM children are not re-ordered). -/
def VisualConsole.construct (container : Container)
    (props : VisualConsoleProps) (items : List UnknownObject) :
    VisualConsoleState :=
  { containerRef := (items.foldl constructStep (render props none container, [])).1,
    props := props,
    elements := sortElements (items.foldl constructStep (render props none container, [])).2 }

/-- The successfully constructed instances of a raw descriptor list, in
input order. -/
def successes (items : List UnknownObject) : List Item :=
  items.filterMap (fun it => (itemInstanceFrom it).toOption)

/-- Strict stacking precedence: `a` is rendered strictly below `b`
exactly when `a` is in the non-top group and `b` in the top group, or
both are in the same group and `a` has the larger id. -/
def stackingBefore (a b : Item) : Prop :=
  (a.props.isOnTop = false ∧ b.props.isOnTop = true)
  ∨ (a.props.isOnTop = b.props.isOnTop ∧ b.props.id < a.props.id)

instance : DecidableRel stackingBefore := fun a b => by
  unfold stackingBefore
  exact inferInstance

/-- An empty container. -/
def emptyContainer : Container :=
  { backgroundImage := none, backgroundColor := none, widthStyle := none,
    heightStyle := none, children := [], log := [] }

/-- A concrete valid console props value. -/
def exProps : VisualConsoleProps :=
  { id := 1, name := "console", groupId := 0, backgroundURL := none,
    backgroundColor := none, isFavorite := false, width := 100, height := 50 }

/-- Instance A of the spec's stacking example: `isOnTop = false`, id 1. -/
def itA : Item :=
  { props := { id := 1, isOnTop := false },
    itemType := VisualConsoleItemType.icon }

/-- Instance B of the spec's stacking example: `isOnTop = false`, id 2. -/
def itB : Item :=
  { props := { id := 2, isOnTop := false },
    itemType := VisualConsoleItemType.icon }

/-- Instance C of the spec's stacking example: `isOnTop = true`, id 3. -/
def itC : Item :=
  { props := { id := 3, isOnTop := true },
    itemType := VisualConsoleItemType.icon }

/-- An instance distinct from `itA` but with the same id and the same
`isOnTop` value. -/
def itA2 : Item :=
  { props := { id := 1, isOnTop := false },
    itemType := VisualConsoleItemType.staticGraph }

/-- A raw icon descriptor with id 1. -/
def exDescr1 : UnknownObject :=
  [("type", JValue.num 5), ("id", JValue.num 1)]

/-- A raw icon descriptor with id 2. -/
def exDescr2 : UnknownObject :=
  [("type", JValue.num 5), ("id", JValue.num 2)]

/-- A concrete console state over the empty container. -/
def exState : VisualConsoleState :=
  { containerRef := emptyContainer, props := exProps, elements := [] }

/-- `typeof v === "string" && v.length !== 0`: the console decoder's
name check. -/
def isNonEmptyString : JValue → Bool
  | JValue.str s => s.length != 0
  | _ => false

/-- A raw descriptor whose `type` parses to 3 (`PERCENTILE_BAR`, an
unimplemented variant). -/
def exBadDescr : UnknownObject :=
  [("type", JValue.num 3), ("id", JValue.num 9)]

/-- The empty field bag: its `type` is absent, so the factory rejects
it. -/
def exEmptyDescr : UnknownObject := []

theorem itemLe_iff (a b : Item) :
    itemLe a b ↔
      (a.props.isOnTop = false ∧ b.props.isOnTop = true)
      ∨ (a.props.isOnTop = b.props.isOnTop ∧ b.props.id ≤ a.props.id) := by
  unfold itemLe jsCompare
  cases ha : a.props.isOnTop <;> cases hb : b.props.isOnTop <;>
    by_cases hid : a.props.id < b.props.id <;>
    simp [ha, hb, hid] <;> omega

instance : IsTotal Item itemLe := by
  constructor
  intro a b
  rw [itemLe_iff, itemLe_iff]
  cases ha : a.props.isOnTop <;> cases hb : b.props.isOnTop <;> simp <;> omega

instance : IsTrans Item itemLe := by
  constructor
  intro a b c hab hbc
  rw [itemLe_iff] at hab hbc ⊢
  rcases hab with ⟨h1, h2⟩ | ⟨h1, h2⟩ <;> rcases hbc with ⟨h3, h4⟩ | ⟨h3, h4⟩
  all_goals simp_all
  all_goals omega

theorem sortElements_perm (l : List Item) : (sortElements l).Perm l :=
  List.perm_insertionSort itemLe l

theorem sortElements_sorted (l : List Item) :
    List.Sorted itemLe (sortElements l) :=
  List.sorted_insertionSort itemLe l

/-- C2: on every list of widget instances with pairwise-distinct ids the
post-construction sort produces a permutation in which every
`isOnTop = true` instance comes after every `isOnTop = false` instance
and, within a same-`isOnTop` group, a smaller id comes after a larger
id; in particular A(false,1), B(false,2), C(true,3) come out as
B, A, C. -/
theorem sort_yields_stacking_order :
    (∀ l : List Item,
        l.Pairwise (fun a b => a.props.id ≠ b.props.id) →
        (sortElements l).Perm l ∧ (sortElements l).Pairwise stackingBefore)
    ∧ sortElements [itA, itB, itC] = [itB, itA, itC] := by
  constructor
  · intro l hids
    refine ⟨sortElements_perm l, ?_⟩
    have hsorted : (sortElements l).Pairwise itemLe := sortElements_sorted l
    have hsymm : ∀ {x y : Item},
        x.props.id ≠ y.props.id → y.props.id ≠ x.props.id :=
      fun hxy => fun h => hxy h.symm
    have hids' : (sortElements l).Pairwise
        (fun a b => a.props.id ≠ b.props.id) :=
      ((sortElements_perm l).pairwise_iff hsymm).mpr hids
    refine (hsorted.and hids').imp ?_
    intro a b hab
    rcases hab with ⟨hle, hne⟩
    rcases (itemLe_iff a b).mp hle with ⟨h1, h2⟩ | ⟨h1, h2⟩
    · exact Or.inl ⟨h1, h2⟩
    · exact Or.inr ⟨h1, lt_of_le_of_ne h2 (fun h => hne h.symm)⟩
  · rfl

/-- Witness for `sort_yields_stacking_order` at the spec's concrete
example list. -/
theorem sort_yields_stacking_order_witness :
    ([itA, itB, itC].Pairwise (fun a b => a.props.id ≠ b.props.id))
    ∧ ((sortElements [itA, itB, itC]).Perm [itA, itB, itC]
        ∧ (sortElements [itA, itB, itC]).Pairwise stackingBefore) :=
  ⟨by decide, sort_yields_stacking_order.1 [itA, itB, itC] (by decide)⟩

/-- C9: on two instances with equal `isOnTop` and equal id the
comparator returns −1 for both argument orders, and it never returns 0
at all — so it is not antisymmetric and determines no order between
equal-id instances of the same group. -/
theorem comparator_breaks_ties_inconsistently :
    (∀ a b : Item,
        a.props.isOnTop = b.props.isOnTop → a.props.id = b.props.id →
        jsCompare a b = -1 ∧ jsCompare b a = -1)
    ∧ (∀ a b : Item, jsCompare a b ≠ 0) := by
  constructor
  · intro a b htop hid
    unfold jsCompare
    rw [htop, hid]
    cases hb : b.props.isOnTop <;> simp
  · intro a b
    unfold jsCompare
    cases ha : a.props.isOnTop <;> cases hb : b.props.isOnTop <;>
      by_cases hid : a.props.id < b.props.id <;> simp [hid]

/-- Witness for `comparator_breaks_ties_inconsistently` on the two
distinct equal-id instances `itA` and `itA2`. -/
theorem comparator_breaks_ties_inconsistently_witness :
    (jsCompare itA itA2 = -1 ∧ jsCompare itA2 itA = -1)
    ∧ jsCompare itA itB ≠ 0 :=
  ⟨comparator_breaks_ties_inconsistently.1 itA itA2 rfl rfl,
   comparator_breaks_ties_inconsistently.2 itA itB⟩

/-- C3: when the new props differ from the stored ones only in
`backgroundColor`, the props setter performs exactly one surface
mutation — the background-color style write — and leaves the
background-image and sizing attributes and the children untouched. -/
theorem setProps_only_backgroundColor (s : VisualConsoleState)
    (c : Option String) (hne : c ≠ s.props.backgroundColor) :
    (s.setProps { s.props with backgroundColor := c }).containerRef.log
      = Mutation.setBackgroundColor c :: s.containerRef.log
    ∧ (s.setProps { s.props with backgroundColor := c }).containerRef.backgroundImage
      = s.containerRef.backgroundImage
    ∧ (s.setProps { s.props with backgroundColor := c }).containerRef.widthStyle
      = s.containerRef.widthStyle
    ∧ (s.setProps { s.props with backgroundColor := c }).containerRef.heightStyle
      = s.containerRef.heightStyle
    ∧ (s.setProps { s.props with backgroundColor := c }).containerRef.children
      = s.containerRef.children := by
  have hne' : s.props.backgroundColor ≠ c := fun h => hne h.symm
  simp [VisualConsoleState.setProps, render, sizeChanged,
    VisualConsoleProps.toSize, Container.setBackgroundColor, hne']

/-- Witness for `setProps_only_backgroundColor` on a concrete state. -/
theorem setProps_only_backgroundColor_witness :
    (exState.setProps { exState.props with backgroundColor := some "red" }).containerRef.log
      = Mutation.setBackgroundColor (some "red") :: exState.containerRef.log
    ∧ (exState.setProps { exState.props with backgroundColor := some "red" }).containerRef.backgroundImage
      = exState.containerRef.backgroundImage
    ∧ (exState.setProps { exState.props with backgroundColor := some "red" }).containerRef.widthStyle
      = exState.containerRef.widthStyle
    ∧ (exState.setProps { exState.props with backgroundColor := some "red" }).containerRef.heightStyle
      = exState.containerRef.heightStyle
    ∧ (exState.setProps { exState.props with backgroundColor := some "red" }).containerRef.children
      = exState.containerRef.children :=
  setProps_only_backgroundColor exState (some "red") (by decide)

/-- C4: setting props whose four visual fields (width, height,
backgroundURL, backgroundColor) equal the stored ones stores the new
record and performs zero surface mutations: the container is completely
unchanged. -/
theorem setProps_unchanged_is_noop (s : VisualConsoleState)
    (next : VisualConsoleProps)
    (hurl : next.backgroundURL = s.props.backgroundURL)
    (hcol : next.backgroundColor = s.props.backgroundColor)
    (hw : next.width = s.props.width)
    (hh : next.height = s.props.height) :
    (s.setProps next).containerRef = s.containerRef
    ∧ (s.setProps next).props = next := by
  simp [VisualConsoleState.setProps, render, sizeChanged,
    VisualConsoleProps.toSize, hurl, hcol, hw, hh]

/-- Witness for `setProps_unchanged_is_noop`: replacing the props with a
copy of themselves patches nothing. -/
theorem setProps_unchanged_is_noop_witness :
    (exState.setProps exProps).containerRef = exState.containerRef
    ∧ (exState.setProps exProps).props = exProps :=
  setProps_unchanged_is_noop exState exProps rfl rfl rfl rfl

/-- C10: a props replacement that changes only the identity fields
(`id`, `name`, `groupId`, `isFavorite`) stores the new record but
performs zero surface mutations — the diffed render only inspects the
four visual fields. -/
theorem setProps_identity_fields_silent (s : VisualConsoleState)
    (i : Int) (n : String) (g : Int) (f : Bool) :
    (s.setProps
        { s.props with id := i, name := n, groupId := g, isFavorite := f }).containerRef
      = s.containerRef
    ∧ (s.setProps
        { s.props with id := i, name := n, groupId := g, isFavorite := f }).props
      = { s.props with id := i, name := n, groupId := g, isFavorite := f } := by
  simp [VisualConsoleState.setProps, render, sizeChanged,
    VisualConsoleProps.toSize]

/-- C8: `resize` is literally the props setter applied to the
spread-merge of the current props with the new width and height; all
non-size fields of the stored props are preserved, the background
attributes are never touched, and the only possible log extension is
the pair of sizing writes, emitted exactly when the size diff fires. -/
theorem resize_refines_setProps (s : VisualConsoleState) (w h : Int) :
    s.resize w h = s.setProps { s.props with width := w, height := h }
    ∧ (s.resize w h).props = { s.props with width := w, height := h }
    ∧ (s.resize w h).containerRef.backgroundImage
      = s.containerRef.backgroundImage
    ∧ (s.resize w h).containerRef.backgroundColor
      = s.containerRef.backgroundColor
    ∧ (s.resize w h).containerRef.log
      = (if sizeChanged s.props.toSize { width := w, height := h } then
          Mutation.setHeight h :: Mutation.setWidth w :: s.containerRef.log
        else s.containerRef.log) := by
  refine ⟨rfl, rfl, ?_⟩
  unfold VisualConsoleState.resize VisualConsoleState.setProps render
  simp only [VisualConsoleProps.toSize, ne_eq, not_true_eq_false, if_false,
    ite_eq_ite]
  split_ifs <;>
    simp [resizeElement, Container.setWidthStyle, Container.setHeightStyle]

/-- C7: the console-level props decoder rejects every raw bag whose
`id` is null/absent/not integer-parseable, whose `name` is not a
non-empty string, or whose `groupId` is null/absent/not
integer-parseable; and decoding is atomic — it yields either a fully
populated record or an error, never anything else. -/
theorem consoleDecoder_rejects_invalid :
    (∀ data : UnknownObject,
        jsParseInt (getField data "id") = none
          ∨ isNonEmptyString (getField data "name") = false
          ∨ jsParseInt (getField data "groupId") = none →
        ∃ e, visualConsolePropsDecoder data = Except.error e)
    ∧ (∀ data : UnknownObject,
        (∃ p, visualConsolePropsDecoder data = Except.ok p)
          ∨ ∃ e, visualConsolePropsDecoder data = Except.error e) := by
  constructor
  · intro data h
    unfold visualConsolePropsDecoder
    cases hid : jsParseInt (getField data "id") with
    | none => exact ⟨_, rfl⟩
    | some idv =>
      cases hname : getField data "name" with
      | str s =>
        by_cases hlen : s.length = 0
        · exact ⟨"invalid name.", by simp [hlen]⟩
        · cases hgid : jsParseInt (getField data "groupId") with
          | none => exact ⟨"invalid group Id.", by simp [hlen]⟩
          | some gid =>
            exfalso
            rcases h with h | h | h
            · rw [hid] at h; exact Option.some_ne_none idv h
            · rw [hname] at h
              simp [isNonEmptyString] at h
              exact hlen h
            · rw [hgid] at h; exact Option.some_ne_none gid h
      | null => exact ⟨_, rfl⟩
      | num n => exact ⟨_, rfl⟩
      | bool b => exact ⟨_, rfl⟩
  · intro data
    cases hd : visualConsolePropsDecoder data with
    | ok p => exact Or.inl ⟨p, rfl⟩
    | error e => exact Or.inr ⟨e, rfl⟩

/-- Witness for `consoleDecoder_rejects_invalid` at the empty field
bag, whose `id` is absent. -/
theorem consoleDecoder_rejects_invalid_witness :
    (∃ e, visualConsolePropsDecoder [] = Except.error e)
    ∧ ((∃ p, visualConsolePropsDecoder [] = Except.ok p)
        ∨ ∃ e, visualConsolePropsDecoder [] = Except.error e) :=
  ⟨consoleDecoder_rejects_invalid.1 [] (Or.inl rfl),
   consoleDecoder_rejects_invalid.2 []⟩

/-- C6: the widget factory fails (rather than returning an instance or
silently dropping the descriptor) whenever the `type` field is absent
or not integer-parseable, or parses to any integer other than the tags
of the four implemented variants (STATIC_GRAPH = 0, ICON = 5,
GROUP_ITEM = 11, COLOR_CLOUD = 20) — which covers every unimplemented
enumeration member and every integer outside the enumeration. -/
theorem tag_staticGraph : VisualConsoleItemType.staticGraph.tag = 0 := rfl

theorem tag_icon : VisualConsoleItemType.icon.tag = 5 := rfl

theorem tag_groupItem : VisualConsoleItemType.groupItem.tag = 11 := rfl

theorem tag_colorCloud : VisualConsoleItemType.colorCloud.tag = 20 := rfl

theorem ite_error {c : Prop} [Decidable c] (a b : Except String Item)
    (ha : ∃ e, a = Except.error e) (hb : ∃ e, b = Except.error e) :
    ∃ e, (if c then a else b) = Except.error e := by
  by_cases h : c
  · rw [if_pos h]; exact ha
  · rw [if_neg h]; exact hb

theorem factory_rejects_unknown_types (data : UnknownObject)
    (h : (match parseIntOr (getField data "type") none with
          | none => true
          | some t => decide (t ≠ 0 ∧ t ≠ 5 ∧ t ≠ 11 ∧ t ≠ 20)) = true) :
    ∃ e, itemInstanceFrom data = Except.error e := by
  unfold itemInstanceFrom
  split
  · exact ⟨_, rfl⟩
  · next t hp =>
    rw [hp] at h
    simp only [decide_eq_true_eq] at h
    obtain ⟨h0, h5, h11, h20⟩ := h
    rw [tag_staticGraph, tag_icon, tag_groupItem, tag_colorCloud]
    rw [if_neg h0]
    refine ite_error _ _ ⟨_, rfl⟩ ?_
    refine ite_error _ _ ⟨_, rfl⟩ ?_
    refine ite_error _ _ ⟨_, rfl⟩ ?_
    refine ite_error _ _ ⟨_, rfl⟩ ?_
    rw [if_neg h5]
    refine ite_error _ _ ⟨_, rfl⟩ ?_
    refine ite_error _ _ ⟨_, rfl⟩ ?_
    refine ite_error _ _ ⟨_, rfl⟩ ?_
    refine ite_error _ _ ⟨_, rfl⟩ ?_
    refine ite_error _ _ ⟨_, rfl⟩ ?_
    rw [if_neg h11]
    refine ite_error _ _ ⟨_, rfl⟩ ?_
    refine ite_error _ _ ⟨_, rfl⟩ ?_
    refine ite_error _ _ ⟨_, rfl⟩ ?_
    refine ite_error _ _ ⟨_, rfl⟩ ?_
    refine ite_error _ _ ⟨_, rfl⟩ ?_
    refine ite_error _ _ ⟨_, rfl⟩ ?_
    refine ite_error _ _ ⟨_, rfl⟩ ?_
    refine ite_error _ _ ⟨_, rfl⟩ ?_
    rw [if_neg h20]
    exact ⟨_, rfl⟩

/-- Witness for `factory_rejects_unknown_types` at a descriptor whose
type tag 3 names the unimplemented PERCENTILE_BAR variant. -/
theorem factory_rejects_unknown_types_witness :
    ∃ e, itemInstanceFrom exBadDescr = Except.error e :=
  factory_rejects_unknown_types exBadDescr (by decide)

theorem foldl_constructStep (items : List UnknownObject) :
    ∀ (c : Container) (acc : List Item),
      (items.foldl constructStep (c, acc)).2 = acc ++ successes items
      ∧ (items.foldl constructStep (c, acc)).1.children
        = c.children ++ successes items := by
  induction items with
  | nil => intro c acc; simp [successes]
  | cons hd tl ih =>
    intro c acc
    cases hit : itemInstanceFrom hd with
    | ok inst =>
      have h1 := ih (c.appendChild inst) (acc ++ [inst])
      have hsucc : successes (hd :: tl) = inst :: successes tl := by
        simp [successes, List.filterMap_cons, hit, Except.toOption]
      simp only [List.foldl_cons, constructStep, hit]
      rw [h1.1, h1.2, hsucc]
      constructor
      · simp
      · simp [Container.appendChild]
    | error e =>
      have h1 := ih c acc
      have hsucc : successes (hd :: tl) = successes tl := by
        simp [successes, List.filterMap_cons, hit, Except.toOption]
      simp only [List.foldl_cons, constructStep, hit]
      rw [h1.1, h1.2, hsucc]
      exact ⟨rfl, rfl⟩

theorem render_none_children (p : VisualConsoleProps) (c : Container) :
    (render p none c).children = c.children := by
  simp [render, resizeElement, Container.setBackgroundImage,
    Container.setBackgroundColor, Container.setWidthStyle,
    Container.setHeightStyle]

theorem successes_length (items : List UnknownObject) :
    (successes items).length
      + items.countP (fun it => ((itemInstanceFrom it).toOption).isNone)
      = items.length := by
  induction items with
  | nil => rfl
  | cons hd tl ih =>
    cases hit : itemInstanceFrom hd with
    | ok inst =>
      have h1 : successes (hd :: tl) = inst :: successes tl := by
        simp [successes, List.filterMap_cons, hit, Except.toOption]
      have h2 : ((itemInstanceFrom hd).toOption).isNone = false := by
        rw [hit]; rfl
      simp only [List.countP_cons, List.length_cons, h1, h2]
      rw [show (if false = true then (1 : Nat) else 0) = 0 from rfl]
      omega
    | error e =>
      have h1 : successes (hd :: tl) = successes tl := by
        simp [successes, List.filterMap_cons, hit, Except.toOption]
      have h2 : ((itemInstanceFrom hd).toOption).isNone = true := by
        rw [hit]; rfl
      simp only [List.countP_cons, List.length_cons, h1, h2]
      rw [if_true]
      omega

theorem sortElements_length (l : List Item) :
    (sortElements l).length = l.length :=
  (sortElements_perm l).length_eq

/-- C1 (amended): construction appends the owned element of each
successfully constructed widget to the surface container in raw input
order; only the internal collection is re-ordered into the computed
stacking order, the DOM children are not. -/
theorem construct_children_input_order (container : Container)
    (props : VisualConsoleProps) (items : List UnknownObject) :
    (VisualConsole.construct container props items).containerRef.children
      = container.children ++ successes items
    ∧ (VisualConsole.construct container props items).elements
      = sortElements (successes items) := by
  have h := foldl_constructStep items (render props none container) []
  simp only [VisualConsole.construct]
  constructor
  · rw [h.2, render_none_children]
  · rw [h.1, List.nil_append]

/-- C1 counterexample: constructing from two icon descriptors (ids 1
and 2, both `isOnTop = false`) leaves the DOM children in raw input
order [id 1, id 2] while the computed stacking order is [id 2, id 1]:
the order in which elements appear in the DOM does not equal the
stacking order. -/
theorem construct_children_not_stacking_order :
    (VisualConsole.construct emptyContainer exProps
        [exDescr1, exDescr2]).containerRef.children = [itA, itB]
    ∧ (VisualConsole.construct emptyContainer exProps
        [exDescr1, exDescr2]).elements = [itB, itA]
    ∧ (VisualConsole.construct emptyContainer exProps
        [exDescr1, exDescr2]).containerRef.children
      ≠ (VisualConsole.construct emptyContainer exProps
        [exDescr1, exDescr2]).elements :=
  ⟨by decide, by decide, by decide⟩

/-- C5: construction never aborts; of N raw descriptors of which K fail
decoding/construction the resulting collection holds exactly N − K
instances, and a failing descriptor has no effect at all on the
processing of the remaining descriptors: deleting it from the input
yields the identical constructed state. -/
theorem construct_skips_failures :
    (∀ (container : Container) (props : VisualConsoleProps)
        (items : List UnknownObject),
        (VisualConsole.construct container props items).elements.length
          + items.countP (fun it => ((itemInstanceFrom it).toOption).isNone)
          = items.length)
    ∧ (∀ (container : Container) (props : VisualConsoleProps)
        (pre post : List UnknownObject) (bad : UnknownObject) (e : String),
        itemInstanceFrom bad = Except.error e →
        VisualConsole.construct container props (pre ++ bad :: post)
          = VisualConsole.construct container props (pre ++ post)) := by
  constructor
  · intro container props items
    have h := foldl_constructStep items (render props none container) []
    simp only [VisualConsole.construct, h.1, List.nil_append,
      sortElements_length]
    exact successes_length items
  · intro container props pre post bad e hbad
    have hstep : ∀ acc : Container × List Item, constructStep acc bad = acc := by
      intro acc; simp [constructStep, hbad]
    simp only [VisualConsole.construct]
    rw [List.foldl_append, List.foldl_cons, hstep, ← List.foldl_append]

/-- Witness for `construct_skips_failures`: deleting the failing empty
descriptor between the two icon descriptors changes nothing. -/
theorem construct_skips_failures_witness :
    itemInstanceFrom exEmptyDescr = Except.error "missing item type."
    ∧ VisualConsole.construct emptyContainer exProps
        ([exDescr1] ++ exEmptyDescr :: [exDescr2])
      = VisualConsole.construct emptyContainer exProps
        ([exDescr1] ++ [exDescr2]) :=
  ⟨rfl, construct_skips_failures.2 emptyContainer exProps [exDescr1] [exDescr2]
    exEmptyDescr "missing item type." rfl⟩
